import Mathlib

/-!
Verification of the falcano attribute layer (`src/falcano/attributes.py`)
against its natural-language specification.

The development shallowly embeds the data model and the operations of the
attribute layer: Python values are modelled by the inductive `PyVal`, the
store's type-tagged wire values by `WireV`, attribute/container classes by
small structures, and each relevant Python function or method by a Lean
function of the same (dotted) name.  Fallible Python code (code that can
raise) is embedded with `Except String`.  All definitions are translated
from the source; definitions whose name ends in `_spec` restate the
specification's words for comparison.
-/

namespace Falcano

/-- A Python value as it occurs in the attribute layer: strings, integers,
booleans, string sets, raw wire lists/dicts passed through untouched by
`ListAttribute`/identity deserialization, plain dicts, bound `MapAttribute`
instances (identified by their class name plus their `attribute_values`),
and `None`.  Python number payloads are restricted to integers, the domain
the claims need. -/
inductive WireV where
  /-- A string value, wire tag `S`. -/
  | S (s : String)
  /-- A number value, wire tag `N`; the wire stores numbers as text. -/
  | N (s : String)
  /-- A boolean value, wire tag `BOOL`. -/
  | BOOLW (b : Bool)
  /-- A string-set value, wire tag `SS`. -/
  | SSW (l : List String)
  /-- A list value, wire tag `L`. -/
  | LW (l : List WireV)
  /-- A map value, wire tag `M`. -/
  | MW (m : List (String × WireV))
  /-- A null marker, wire tag `NULL`. -/
  | NULLW
  /-- A wire value carrying a type tag not produced by this layer, with an
  opaque textual payload. -/
  | UNK (tag : String) (payload : String)

/-- Native Python values handled by the attribute layer. -/
inductive PyVal where
  | str (s : String)
  | num (n : Int)
  | bool (b : Bool)
  /-- A Python `set` of strings, in canonical (sorted, duplicate-free) form:
  Python set equality is extensional, so sets are modelled by their canonical
  element list. -/
  | set (elems : List String)
  | list (elems : List PyVal)
  /-- A raw wire list passed through unchanged by `ListAttribute.deserialize`. -/
  | wireList (l : List WireV)
  /-- A raw wire map passed through unchanged by identity deserialization. -/
  | wireDict (m : List (String × WireV))
  /-- A plain Python `dict`. -/
  | pydict (m : List (String × PyVal))
  /-- A bound `MapAttribute` instance: its class name and its
  `attribute_values` dictionary. -/
  | mapInst (clsName : String) (vals : List (String × PyVal))
  /-- Python `None`. -/
  | pynone

/-- Python truthiness (`bool(v)`) for the modelled values.  Containers are
truthy iff non-empty; `AttributeContainer` instances define no `__bool__` or
`__len__`, hence are always truthy. -/
def py_truthy : PyVal → Bool
  | PyVal.str s => s != ""
  | PyVal.num n => n != 0
  | PyVal.bool b => b
  | PyVal.set l => !l.isEmpty
  | PyVal.list l => !l.isEmpty
  | PyVal.wireList l => !l.isEmpty
  | PyVal.wireDict m => !m.isEmpty
  | PyVal.pydict m => !m.isEmpty
  | PyVal.mapInst _ _ => true
  | PyVal.pynone => false

/-- Truthiness of an optional value (`None` is falsy). -/
def py_truthy_opt : Option PyVal → Bool
  | Option.none => false
  | some v => py_truthy v

/-- First-match association-list lookup, modelling `dict.get(k)` (Python
dicts hold at most one entry per key; the embedding keeps keys distinct). -/
def assoc_get {α : Type} : List (String × α) → String → Option α
  | [], _ => Option.none
  | (k', v) :: rest, k => if k' = k then some v else assoc_get rest k

/-- Update-or-append on an association list, modelling `d[k] = v`. -/
def assoc_set {α : Type} : List (String × α) → String → α → List (String × α)
  | [], k, v => [(k, v)]
  | (k', v') :: rest, k, v =>
      if k' = k then (k, v) :: rest else (k', v') :: assoc_set rest k v

/-- `dict.get(k, k)` used by `AttributeContainer._dynamo_to_python_attr`:
look up `k`, defaulting to `k` itself. -/
def lookup_default (l : List (String × String)) (k : String) : String :=
  (assoc_get l k).getD k

/-! ## Claim C10: equality on attribute containers

`AttributeContainer.__eq__`/`__ne__` (attributes.py lines 361..367) are
`self is other` / `self is not other`.  `MapAttribute.__eq__`/`__ne__`
(lines 712..720) dispatch on the mode; `Attribute` declares no `__eq__`
(the overrides at lines 191..203 are commented out), so the attribute-mode
branch falls back to `object.__eq__`, which is also identity.  Object
identity is modelled by an object id: distinct live objects have distinct
ids, so `self is other` holds iff the ids coincide. -/

/-- A live Python object of the container kind: an identity plus its
`attribute_values` dictionary. -/
structure PyObj where
  objId : Nat
  attribute_values : List (String × PyVal)

/-- The Python `is` operator on modelled objects. -/
def py_is (a b : PyObj) : Bool := a.objId == b.objId

/-- `AttributeContainer.__eq__`: `return self is other`. -/
def AttributeContainer.eq (a b : PyObj) : Bool := py_is a b

/-- `AttributeContainer.__ne__`: `return self is not other`. -/
def AttributeContainer.ne (a b : PyObj) : Bool := !py_is a b

/-- Equality reaching `Attribute`: no `__eq__` override is live, so Python
falls back to `object.__eq__`, i.e. identity. -/
def Attribute.eq (a b : PyObj) : Bool := py_is a b

/-- The matching fallback for `!=`. -/
def Attribute.ne (a b : PyObj) : Bool := !py_is a b

/-- `MapAttribute.__eq__`: dispatch on `is_attribute_container()`. -/
def MapAttribute.eq (isContainer : Bool) (a b : PyObj) : Bool :=
  if isContainer then AttributeContainer.eq a b else Attribute.eq a b

/-- `MapAttribute.__ne__`: dispatch on `is_attribute_container()`. -/
def MapAttribute.ne (isContainer : Bool) (a b : PyObj) : Bool :=
  if isContainer then AttributeContainer.ne a b else Attribute.ne a b

/-- Claim C10: equality on attribute containers is object identity.  In both
container mode and attribute mode (hence for data-mode `MapAttribute`
instances too), `a == b` holds iff `a` and `b` are the same object and
`a != b` holds iff they are distinct; in particular two distinct containers
holding equal field values compare unequal, as witnessed by the concrete
objects with ids 0 and 1 carrying identical `attribute_values`. -/
theorem container_equality_is_identity :
    ∀ (m : Bool) (a b : PyObj),
      (MapAttribute.eq m a b = true ↔ a.objId = b.objId)
      ∧ (MapAttribute.ne m a b = true ↔ a.objId ≠ b.objId)
      ∧ (AttributeContainer.eq a b = true ↔ a.objId = b.objId)
      ∧ AttributeContainer.eq ⟨0, [("x", PyVal.str "v")]⟩
          ⟨1, [("x", PyVal.str "v")]⟩ = false := by
  intro m a b
  refine ⟨?_, ?_, ?_, rfl⟩ <;>
    cases m <;>
      simp [MapAttribute.eq, MapAttribute.ne, AttributeContainer.eq,
        AttributeContainer.ne, Attribute.eq, Attribute.ne, py_is]

/-! ## Claim C1: re-triggering conversion on a converted nested node

`MapAttribute.make_attribute` (attributes.py lines 674..695) is the
type-registration trigger that converts a data-mode instance to schema
mode.  Its state is modelled by `MapState`: a data-mode instance owns a
live `attribute_values` map plus the stored constructor kwargs; a
schema-mode instance holds the configuration produced by
`Attribute.__init__` (the deep-copied descendant attributes are modelled
separately by the path machinery of claim C6). -/

/-- The keyword arguments of `Attribute.__init__` (attributes.py lines
93..101), as stashed by `MapAttribute.__init__` in `attribute_kwargs`.
Callable defaults are modelled by the value they produce. -/
structure AttrKwargs where
  hash_key : Bool := false
  range_key : Bool := false
  null : Option Bool := Option.none
  default : Option PyVal := Option.none
  default_for_new : Option PyVal := Option.none
  attr_name : Option String := Option.none

/-- The per-attribute state established by `Attribute.__init__`
(attributes.py lines 93..115). -/
structure AttrState where
  is_hash_key : Bool
  is_range_key : Bool
  nullable : Bool
  default : Option PyVal
  default_for_new : Option PyVal
  attr_path : List (Option String)

/-- `Attribute.__init__`: rejects a truthy `default` combined with a truthy
`default_for_new` (`if default and default_for_new: raise ValueError`),
otherwise records the configuration with `attr_path = [attr_name]`. -/
def Attribute.init (k : AttrKwargs) : Except String AttrState :=
  if py_truthy_opt k.default && py_truthy_opt k.default_for_new then
    Except.error "An attribute cannot have both default and default_for_new parameters"
  else
    Except.ok { is_hash_key := k.hash_key, is_range_key := k.range_key,
                nullable := k.null.getD false, default := k.default,
                default_for_new := k.default_for_new, attr_path := [k.attr_name] }

/-- The two structural modes of a `MapAttribute` instance: data mode (it
still owns `attribute_kwargs` and a live `attribute_values` map) or schema
mode (converted; only the `Attribute` configuration remains). -/
inductive MapState where
  | container (attribute_kwargs : AttrKwargs) (attribute_values : List (String × PyVal))
  | converted (st : AttrState)

/-- `MapAttribute.is_attribute_container`: a live `attribute_values` map is
present exactly in data mode. -/
def MapAttribute.is_attribute_container : MapState → Bool
  | MapState.container _ _ => true
  | MapState.converted _ => false

/-- `MapAttribute.make_attribute` (attributes.py lines 674..695): if the
instance is no longer a container it returns `False` (the code comments
"This instance has already been initialized by another AttributeContainer
class."); otherwise it discards the container storage and re-initializes
the instance via `Attribute.__init__` from the stashed kwargs, returning
`True`.  The deep copy of the class attributes into the instance dictionary
is modelled by the path machinery of claim C6. -/
def MapAttribute.make_attribute (s : MapState) : Except String (Bool × MapState) :=
  match s with
  | MapState.converted st => Except.ok (false, MapState.converted st)
  | MapState.container kwargs _ =>
      (Attribute.init kwargs).map (fun st => (true, MapState.converted st))

/-- A concrete already-converted (schema-mode) nested-node state. -/
def convertedState : MapState :=
  MapState.converted { is_hash_key := false, is_range_key := false,
                       nullable := false, default := Option.none,
                       default_for_new := Option.none, attr_path := [some "a"] }

/-- Claim C1 counterexample: triggering conversion on an instance that is
not in data mode does NOT fail loudly — `make_attribute` returns `False`
and leaves the state unchanged instead of raising, contradicting the claim
that this must raise a fatal internal-consistency error. -/
theorem make_attribute_double_conversion_no_raise :
    MapAttribute.make_attribute convertedState
      = Except.ok (false, convertedState) := rfl

/-- Claim C1 (amended): triggering conversion on an instance that is not in
data mode silently returns `False` without modifying the instance and
without raising; the enclosing registration then merely skips
re-initialization and path prefixing for that field. -/
theorem make_attribute_already_converted_returns_false :
    ∀ s : MapState, MapAttribute.is_attribute_container s = false →
      MapAttribute.make_attribute s = Except.ok (false, s) := by
  intro s h
  cases s with
  | container k v => simp [MapAttribute.is_attribute_container] at h
  | converted st => rfl

/-- Witness for the amended claim C1 at the concrete converted state. -/
theorem make_attribute_already_converted_returns_false_witness :
    MapAttribute.is_attribute_container convertedState = false
    ∧ MapAttribute.make_attribute convertedState = Except.ok (false, convertedState) :=
  ⟨rfl, make_attribute_already_converted_returns_false convertedState rfl⟩

/-! ## Claim C3: duplicate wire names at type declaration

`AttributeContainerMeta._initialize_attributes` (attributes.py lines
56..83) collects the declared attribute members into `cls._attributes` and
builds the reverse map `cls._dynamo_to_python_attrs`.  The loop body for
names is lines 73..77: store the member, and either record an explicit
`attr_name` in the reverse map (a plain dict assignment, with no duplicate
check) or assign the python name as the wire name.  The map-conversion
branch (lines 68..71 and 79..83) is modelled by `MapAttribute.make_attribute`
and the path machinery of claim C6; here members are scalar attributes
given by `(python_name, optional explicit attr_name)`, listed in
`getmembers` order (sorted by python name).  The function returns
`Except` to record that this registration path contains no raise. -/

/-- One step of the registration loop (lines 73..77): record the final wire
name of the member and, when an explicit `attr_name` was supplied, insert it
into the reverse map, overwriting any previous binding. -/
def register_attributes_step (acc : List (String × String) × List (String × String))
    (member : String × Option String) :
    List (String × String) × List (String × String) :=
  match member.2 with
  | some w => (assoc_set acc.1 member.1 w, assoc_set acc.2 w member.1)
  | Option.none => (assoc_set acc.1 member.1 member.1, acc.2)

/-- Models `AttributeContainerMeta._initialize_attributes` for scalar
members: returns (`cls._attributes` as python-name to wire-name,
`cls._dynamo_to_python_attrs`).  No code path raises. -/
def register_attributes (members : List (String × Option String)) :
    Except String (List (String × String) × List (String × String)) :=
  Except.ok (members.foldl register_attributes_step ([], []))

/-- Claim C3 counterexample: declaring two attributes with the same wire
name `"w"` is NOT surfaced as a definition error at declaration time —
registration succeeds, and the reverse wire-name map silently binds `"w"`
to the member registered last. -/
theorem duplicate_wire_name_not_rejected :
    register_attributes [("alpha", some "w"), ("beta", some "w")]
      = Except.ok ([("alpha", "w"), ("beta", "w")], [("w", "beta")]) := rfl

/-- Claim C3 (amended): declaring two attributes with the same wire name on
one type raises no error at declaration time (or ever, in this layer):
registration completes and the reverse wire-name map maps the duplicated
wire name to whichever member was registered last. -/
theorem duplicate_wire_name_last_member_wins :
    ∀ n₁ n₂ w : String, n₁ ≠ n₂ →
      register_attributes [(n₁, some w), (n₂, some w)]
        = Except.ok ([(n₁, w), (n₂, w)], [(w, n₂)]) := by
  intro n₁ n₂ w h
  simp [register_attributes, register_attributes_step, assoc_set, h]

/-- Witness for the amended claim C3 at concrete member names. -/
theorem duplicate_wire_name_last_member_wins_witness :
    ("alpha" : String) ≠ "beta"
    ∧ register_attributes [("alpha", some "w"), ("beta", some "w")]
        = Except.ok ([("alpha", "w"), ("beta", "w")], [("w", "beta")]) :=
  ⟨by decide, duplicate_wire_name_last_member_wins "alpha" "beta" "w" (by decide)⟩

/-! ## Claim C6: nested attribute path composition

At type registration (`AttributeContainerMeta._initialize_attributes`,
attributes.py lines 65..83) a nested `MapAttribute` field is converted by
`make_attribute` — its `attr_path` becomes `[attr_name]` and the attributes
of its class are deep-copied into its instance dictionary — and then
`update_attribute_paths(attr_name)` (lines 697..710) prefixes the wire name
onto every copied descendant's `attr_path`, recursing into nested map
attributes with the same segment.  The copied attribute tree is modelled by
`PAttr`; deep copy is identity on these pure values. -/

/-- A registered attribute as carried in a class's `_attributes` map /
a converted map attribute's instance dictionary: its `attr_path`, and (for
a nested map attribute) its own local copies of its sub-attributes. -/
inductive PAttr where
  | scalar (attr_path : List String)
  | mapA (attr_path : List String) (local_attrs : List (String × PAttr))

/-- `MapAttribute.update_attribute_paths(path_segment)` (attributes.py lines
697..710), acting on the list of local attribute copies: insert the segment
at the front of each local attribute's `attr_path`, and recurse with the
same segment into local attributes that are themselves map attributes. -/
def MapAttribute.update_attribute_paths (seg : String) :
    List (String × PAttr) → List (String × PAttr)
  | [] => []
  | (n, PAttr.scalar p) :: rest =>
      (n, PAttr.scalar (seg :: p)) :: MapAttribute.update_attribute_paths seg rest
  | (n, PAttr.mapA p cs) :: rest =>
      (n, PAttr.mapA (seg :: p) (MapAttribute.update_attribute_paths seg cs))
        :: MapAttribute.update_attribute_paths seg rest

/-- Registration of a nested-map field with wire name `w` whose class has
the already-registered attributes `class_attrs`: `make_attribute` sets the
field's own `attr_path` to `[w]` and deep-copies `class_attrs` into the
instance dictionary, then `_initialize_attributes` (lines 79..83) calls
`update_attribute_paths w` on the copies. -/
def register_map_field (w : String) (class_attrs : List (String × PAttr)) : PAttr :=
  PAttr.mapA [w] (MapAttribute.update_attribute_paths w class_attrs)

/-- Look up a local sub-attribute of a converted map attribute by python
name (instance-dictionary access). -/
def PAttr.child (a : PAttr) (n : String) : Option PAttr :=
  match a with
  | PAttr.mapA _ cs => assoc_get cs n
  | PAttr.scalar _ => Option.none

/-- The `attr_path` of a registered attribute. -/
def PAttr.path : PAttr → List String
  | PAttr.scalar p => p
  | PAttr.mapA p _ => p

/-- The registered attributes of `Inner { leaf }`: registering the scalar
field `leaf` with wire name `wleaf` yields `attr_path = [wleaf]`. -/
def innerAttrs (wleaf : String) : List (String × PAttr) :=
  [("leaf", PAttr.scalar [wleaf])]

/-- The registered attributes of `Middle { b : Inner }` where field `b` has
wire name `wb`. -/
def middleAttrs (wb wleaf : String) : List (String × PAttr) :=
  [("b", register_map_field wb (innerAttrs wleaf))]

/-- The registered attributes of `Outer { a : Middle }` where field `a` has
wire name `wa`. -/
def outerAttrs (wa wb wleaf : String) : List (String × PAttr) :=
  [("a", register_map_field wa (middleAttrs wb wleaf))]

/-- Claim C6: for nested document types `Outer { a : Middle }` and
`Middle { b : Inner }`, after registration the leaf field reached as
`Outer.a.b.leaf` has attribute path `[wa, wb, wleaf]` — the wire names of
`a`, `b` and the leaf, in root-to-leaf order — for all wire names. -/
theorem nested_attribute_path_root_to_leaf :
    ∀ wa wb wleaf : String,
      ((assoc_get (outerAttrs wa wb wleaf) "a").bind
          (fun a => (a.child "b").bind
            (fun b => (b.child "leaf").map PAttr.path)))
        = some [wa, wb, wleaf] := by
  intro wa wb wleaf
  simp [outerAttrs, middleAttrs, innerAttrs, register_map_field,
    MapAttribute.update_attribute_paths, PAttr.child, PAttr.path, assoc_get]

/-! ## Claim C8: composite key attribute

`KeyAttribute` (attributes.py lines 1009..1039) composes a single string
key from an optional fixed value, an optional prefix and an optional suffix
joined by a separator, delegating to `UnicodeAttribute` for the string
encoding; its configuration fields `prefix` / `suffix` / `fixed_value` /
`separator` are modelled by `pre` / `suf` / `fixedValue` / `separator`. -/

/-- The configuration recorded by `KeyAttribute.__init__` (attributes.py
lines 1011..1025): `pre` models `self.prefix`, `suf` models `self.suffix`,
`fixedValue` models `self.fixed_value`; `separator` defaults to `#` when
the supplied separator is falsy. -/
structure KeyAttrCfg where
  pre : Option String
  suf : Option String
  fixedValue : Option String
  separator : String

/-- Python truthiness of an optional string (`None` and `''` are falsy). -/
def py_truthy_str : Option String → Bool
  | Option.none => false
  | some s => s != ""

/-- Rendering of an optional string inside an f-string (`str(None)` is the
text `None`). -/
def py_str_of : Option String → String
  | Option.none => "None"
  | some s => s

/-- `UnicodeAttribute.serialize` (attributes.py lines 376..385) on the
string domain: a falsy (empty) value serializes to `None` (omission),
anything else to itself. -/
def UnicodeAttribute.serialize (v : String) : Option String :=
  if v = "" then Option.none else some v

/-- `KeyAttribute.serialize` (attributes.py lines 1027..1035): substitute
the configured fixed value when no (truthy) dynamic value is supplied,
compose `prefix separator value separator suffix` with each part present
only when configured truthy, and delegate to the string encoder. -/
def KeyAttribute.serialize (cfg : KeyAttrCfg) (value : Option String) : Option String :=
  let value := if !py_truthy_str value && py_truthy_str cfg.fixedValue
               then cfg.fixedValue else value
  let composed :=
    (if py_truthy_str cfg.pre then py_str_of cfg.pre ++ cfg.separator else "")
      ++ py_str_of value
      ++ (if py_truthy_str cfg.suf then cfg.separator ++ py_str_of cfg.suf else "")
  UnicodeAttribute.serialize composed

/-- `KeyAttribute.deserialize` (attributes.py lines 1037..1039): split the
stored string on the separator and keep the last segment when a prefix is
configured (`[-1]`), otherwise the first (`[0]`); `Attribute.deserialize`
is the identity. -/
def KeyAttribute.deserialize (cfg : KeyAttrCfg) (value : String) : String :=
  let segs := value.splitOn cfg.separator
  if py_truthy_str cfg.pre then segs.getLastD "" else segs.headD ""

/-- Joining a list of present key parts with the separator — the
specification's formulation of key composition. -/
def join_sep (sep : String) : List String → String
  | [] => ""
  | [x] => x
  | x :: y :: xs => x ++ sep ++ join_sep sep (y :: xs)

/-- The specification's description of `KeyAttribute.serialize`: compose
`prefix SEP value SEP suffix`, omitting any part configured as absent. -/
def compose_key_spec (cfg : KeyAttrCfg) (v : Option String) : String :=
  join_sep cfg.separator
    ((if py_truthy_str cfg.pre then [py_str_of cfg.pre] else [])
      ++ [py_str_of v]
      ++ (if py_truthy_str cfg.suf then [py_str_of cfg.suf] else []))

/-- Claim C8: for every composite key configuration, serialization
substitutes the fixed value exactly when no truthy dynamic value is
supplied, composes the present parts joined by the separator and delegates
to the string encoder; deserialization splits on the separator and takes
the last segment when a prefix is configured, otherwise the first, then
delegates to the (identity) string decoder. -/
theorem key_attribute_compose_split :
    ∀ (cfg : KeyAttrCfg) (v : Option String) (s : String),
      KeyAttribute.serialize cfg v
        = UnicodeAttribute.serialize
            (compose_key_spec cfg
              (if !py_truthy_str v && py_truthy_str cfg.fixedValue
               then cfg.fixedValue else v))
      ∧ KeyAttribute.deserialize cfg s
          = (if py_truthy_str cfg.pre
             then (s.splitOn cfg.separator).getLastD ""
             else (s.splitOn cfg.separator).headD "") := by
  intro cfg v s
  constructor
  · cases hp : py_truthy_str cfg.pre <;> cases hs : py_truthy_str cfg.suf <;>
      simp [KeyAttribute.serialize, compose_key_spec, join_sep, hp, hs,
        String.append_assoc]
  · rfl

/-! ## Python string ordering

Python `sorted` on strings orders lexicographically by code point.  The
comparison is defined directly over character lists so that every proof
obligation can be evaluated by the kernel. -/

/-- Lexicographic code-point comparison of character lists (`x <= y`). -/
def chars_le : List Char → List Char → Bool
  | [], _ => true
  | _ :: _, [] => false
  | a :: as, b :: bs =>
      if a.toNat < b.toNat then true
      else if b.toNat < a.toNat then false
      else chars_le as bs

/-- Python `<=` on strings. -/
def py_str_le (a b : String) : Bool := chars_le a.data b.data

/-- The string comparison is total. -/
theorem chars_le_total : ∀ x y : List Char, chars_le x y = true ∨ chars_le y x = true
  | [], _ => Or.inl rfl
  | _ :: _, [] => Or.inr rfl
  | a :: as, b :: bs => by
      rcases Nat.lt_trichotomy a.toNat b.toNat with h | h | h
      · left; simp [chars_le, h]
      · have h1 : ¬ a.toNat < b.toNat := by omega
        have h2 : ¬ b.toNat < a.toNat := by omega
        rcases chars_le_total as bs with ih | ih
        · left; simp [chars_le, h1, h2, ih]
        · right; simp [chars_le, h1, h2, ih]
      · right; simp [chars_le, h]

/-- The string comparison is transitive. -/
theorem chars_le_trans : ∀ x y z : List Char,
    chars_le x y = true → chars_le y z = true → chars_le x z = true
  | [], _, _, _, _ => rfl
  | _ :: _, [], _, h, _ => by simp [chars_le] at h
  | _ :: _, _ :: _, [], _, h => by simp [chars_le] at h
  | a :: as, b :: bs, c :: cs, h₁, h₂ => by
      by_cases hab : a.toNat < b.toNat
      · by_cases hbc : b.toNat < c.toNat
        · have hac : a.toNat < c.toNat := by omega
          simp [chars_le, hac]
        · have hcb : ¬ c.toNat < b.toNat := by
            intro hcb; simp [chars_le, hbc, hcb] at h₂
          have hac : a.toNat < c.toNat := by omega
          simp [chars_le, hac]
      · have hba : ¬ b.toNat < a.toNat := by
          intro hba; simp [chars_le, hab, hba] at h₁
        by_cases hbc : b.toNat < c.toNat
        · have hac : a.toNat < c.toNat := by omega
          simp [chars_le, hac]
        · have hcb : ¬ c.toNat < b.toNat := by
            intro hcb; simp [chars_le, hbc, hcb] at h₂
          have h₁' : chars_le as bs = true := by simpa [chars_le, hab, hba] using h₁
          have h₂' : chars_le bs cs = true := by simpa [chars_le, hbc, hcb] using h₂
          have hac : ¬ a.toNat < c.toNat := by omega
          have hca : ¬ c.toNat < a.toNat := by omega
          simpa [chars_le, hac, hca] using chars_le_trans as bs cs h₁' h₂'

/-- Totality of `py_str_le`. -/
theorem py_str_le_total (a b : String) : py_str_le a b = true ∨ py_str_le b a = true :=
  chars_le_total a.data b.data

/-- Transitivity of `py_str_le`. -/
theorem py_str_le_trans {a b c : String}
    (h₁ : py_str_le a b = true) (h₂ : py_str_le b c = true) : py_str_le a c = true :=
  chars_le_trans a.data b.data c.data h₁ h₂

/-- When `a <= b` fails, `b <= a` holds. -/
theorem py_str_le_of_not {a b : String} (h : ¬ py_str_le a b = true) :
    py_str_le b a = true := by
  rcases py_str_le_total a b with h' | h'
  · exact absurd h' h
  · exact h'

/-- Stable insertion into a sorted list, the building block of Python
`sorted`. -/
def ordered_insert (s : String) : List String → List String
  | [] => [s]
  | t :: rest =>
      if py_str_le s t then s :: t :: rest else t :: ordered_insert s rest

/-- Python `sorted` on a list of strings (insertion sort — stable and
ascending, like CPython's sort). -/
def py_sorted : List String → List String
  | [] => []
  | x :: xs => ordered_insert x (py_sorted xs)

/-- Ascending order with respect to the Python string comparison. -/
def PySorted (l : List String) : Prop :=
  List.Pairwise (fun a b => py_str_le a b = true) l

/-- Membership in an insertion. -/
theorem mem_ordered_insert {x s : String} :
    ∀ {l : List String}, x ∈ ordered_insert s l ↔ x = s ∨ x ∈ l := by
  intro l
  induction l with
  | nil => simp [ordered_insert]
  | cons t rest ih =>
      by_cases h : py_str_le s t = true <;>
        simp [ordered_insert, h, ih] <;> tauto

/-- Insertion preserves sortedness. -/
theorem pysorted_ordered_insert (s : String) :
    ∀ {l : List String}, PySorted l → PySorted (ordered_insert s l) := by
  intro l
  induction l with
  | nil => intro _; simp [ordered_insert, PySorted]
  | cons t rest ih =>
      intro h
      have h' := List.pairwise_cons.mp h
      by_cases hst : py_str_le s t = true
      · simp only [ordered_insert, hst, if_true]
        refine List.pairwise_cons.mpr ⟨?_, h⟩
        intro y hy
        rcases List.mem_cons.mp hy with rfl | hy'
        · exact hst
        · exact py_str_le_trans hst (h'.1 y hy')
      · simp only [ordered_insert, hst, if_false]
        refine List.pairwise_cons.mpr ⟨?_, ih h'.2⟩
        intro y hy
        rcases mem_ordered_insert.mp hy with rfl | hy'
        · exact py_str_le_of_not hst
        · exact h'.1 y hy'

/-- Python `sorted` sorts. -/
theorem pysorted_py_sorted : ∀ l : List String, PySorted (py_sorted l)
  | [] => List.Pairwise.nil
  | x :: xs => pysorted_ordered_insert x (pysorted_py_sorted xs)

/-- Insertion is a permutation of consing. -/
theorem ordered_insert_perm (s : String) :
    ∀ l : List String, List.Perm (ordered_insert s l) (s :: l)
  | [] => List.Perm.refl _
  | t :: rest => by
      by_cases h : py_str_le s t = true
      · simp [ordered_insert, h]
      · simp only [ordered_insert, h, if_false]
        exact ((ordered_insert_perm s rest).cons t).trans (List.Perm.swap s t rest)

/-- Sorting permutes. -/
theorem py_sorted_perm : ∀ l : List String, List.Perm (py_sorted l) l
  | [] => List.Perm.refl _
  | x :: xs => (ordered_insert_perm x (py_sorted xs)).trans ((py_sorted_perm xs).cons x)

/-- Sorting an already sorted list is the identity. -/
theorem py_sorted_eq_of_pysorted : ∀ {l : List String}, PySorted l → py_sorted l = l
  | [], _ => rfl
  | x :: xs, h => by
      have h' := List.pairwise_cons.mp h
      rw [py_sorted, py_sorted_eq_of_pysorted h'.2]
      cases xs with
      | nil => rfl
      | cons y ys => simp [ordered_insert, h'.1 y (List.mem_cons_self y ys)]

/-! ## JSON helpers

`json.dumps` / `json.loads` as used by the attribute layer, restricted to
the value domain that reaches them: `dumps` on strings (set elements) and
`loads` on integer number payloads. -/

/-- `json.dumps` escaping for one character (backslash and double quote;
the set-element strings of interest carry no control characters). -/
def json_escape_char (c : Char) : String :=
  if c = '\\' then "\\\\" else if c = '"' then "\\\"" else String.singleton c

/-- `json.dumps` on a string: the escaped text wrapped in double quotes. -/
def json_dumps_str (s : String) : String :=
  "\"" ++ String.join (s.toList.map json_escape_char) ++ "\""

/-- Digit accumulation for the integer parser. -/
def parse_nat_digits : List Char → Nat → Option Nat
  | [], acc => some acc
  | c :: cs, acc =>
      if c.isDigit then parse_nat_digits cs (acc * 10 + (c.toNat - 48))
      else Option.none

/-- `json.loads` on the textual integer literals this layer produces for
NUMBER payloads. -/
def json_parse_int (s : String) : Except String PyVal :=
  match s.data with
  | [] => Except.error "Expecting value"
  | '-' :: rest =>
      if rest.isEmpty then Except.error "Expecting value"
      else
        match parse_nat_digits rest 0 with
        | some n => Except.ok (PyVal.num (-(n : Int)))
        | Option.none => Except.error "Expecting value"
  | cs =>
      match parse_nat_digits cs 0 with
      | some n => Except.ok (PyVal.num (n : Int))
      | Option.none => Except.error "Expecting value"

/-- `json.loads(value)`: accepts only text; any non-string argument raises
`TypeError: the JSON object must be str, bytes or bytearray`. -/
def json_loads (v : PyVal) : Except String PyVal :=
  match v with
  | PyVal.str s => json_parse_int s
  | _ => Except.error "the JSON object must be str, bytes or bytearray"

/-! ## Claim C4: number attribute round-trip

`NumberAttribute` (attributes.py lines 458..474): `serialize` returns the
value UNCHANGED (`return value`) although its docstring says "Encode
numbers as JSON"; `deserialize` decodes with `json.loads(value)`. -/

/-- `NumberAttribute.serialize`: the body is `return value` — no
numeric-to-text encoding happens. -/
def NumberAttribute.serialize (value : PyVal) : PyVal := value

/-- `NumberAttribute.deserialize`: `json.loads(value)`. -/
def NumberAttribute.deserialize (value : PyVal) : Except String PyVal :=
  json_loads value

/-- Claim C4 (code bug): the number attribute does not round-trip.
`serialize` passes the native number `3` through unchanged (no
numeric-to-text encoding, contradicting its own docstring), so
`deserialize(serialize(3))` hands a non-string to `json.loads`, which
raises instead of returning `3`; decoding a proper textual wire payload
`"3"` does yield `3`, confirming the asymmetry. -/
theorem number_attribute_roundtrip_fails :
    NumberAttribute.deserialize (NumberAttribute.serialize (PyVal.num 3))
        = Except.error "the JSON object must be str, bytes or bytearray"
    ∧ NumberAttribute.deserialize (PyVal.str "3") = Except.ok (PyVal.num 3) :=
  ⟨rfl, rfl⟩

/-! ## Claim C5: set serialization

Two serializers are in play.  `SetMixin.serialize` (attributes.py lines
393..407) returns `[json.dumps(val) for val in sorted(value)]` — a sorted
list of JSON-encoded elements — and `None` for empty/absent sets.  But the
concrete string-set attribute `UnicodeSetAttribute` OVERRIDES `serialize`
(lines 442..450) with `set(self.element_serialize(val) for val in
sorted(value))` — a Python set of raw (non-JSON-encoded) strings — again
with `None` for empty/absent sets.  Python sets are modelled canonically:
`py_set l` is the sorted duplicate-free element list, so Python set
equality is Lean equality of canonical forms.  The `except TypeError`
wrapping of non-iterable scalars applies outside the set domain modelled
here. -/

/-- The canonical form of a Python set of strings: sorted and
duplicate-free. -/
def py_set (l : List String) : List String :=
  py_sorted l.dedup

/-- `SetMixin.serialize`: `None` for an absent or empty set, otherwise the
list of JSON-encoded elements in sorted element order. -/
def SetMixin.serialize (value : Option (List String)) : Option PyVal :=
  match value with
  | Option.none => Option.none
  | some l =>
      if !l.isEmpty then
        some (PyVal.list ((py_sorted l).map (fun s => PyVal.str (json_dumps_str s))))
      else Option.none

/-- `UnicodeSetAttribute.element_serialize`: identity on strings. -/
def UnicodeSetAttribute.element_serialize (s : String) : String := s

/-- `UnicodeSetAttribute.serialize` (the override actually used for string
sets): `None` for an absent or empty set, otherwise the Python SET of the
element-serialized values (modelled by its canonical form). -/
def UnicodeSetAttribute.serialize (value : Option (List String)) : Option PyVal :=
  match value with
  | Option.none => Option.none
  | some l =>
      if !l.isEmpty then
        some (PyVal.set (py_set ((py_sorted l).map UnicodeSetAttribute.element_serialize)))
      else Option.none

/-- `py_set` produces a sorted list. -/
theorem pysorted_py_set (l : List String) : PySorted (py_set l) :=
  pysorted_py_sorted l.dedup

/-- `py_set` produces a duplicate-free list. -/
theorem nodup_py_set (l : List String) : (py_set l).Nodup :=
  ((py_sorted_perm l.dedup).nodup_iff).mpr l.nodup_dedup

/-- Sorting an already canonical set is the identity. -/
theorem py_sorted_py_set (l : List String) : py_sorted (py_set l) = py_set l :=
  py_sorted_eq_of_pysorted (pysorted_py_set l)

/-- Canonicalizing a canonical set is the identity. -/
theorem py_set_py_set (l : List String) : py_set (py_set l) = py_set l := by
  have h : (py_set l).dedup = py_set l := List.dedup_eq_self.mpr (nodup_py_set l)
  calc py_set (py_set l) = py_sorted (py_set l).dedup := rfl
    _ = py_sorted (py_set l) := by rw [h]
    _ = py_set l := py_sorted_py_set l

/-- Claim C5 counterexample: serializing the non-empty set `{"b","a"}`
through the string-set attribute does NOT produce a list of individually
JSON-encoded elements — it produces the Python set `{"a","b"}` of raw
elements, which differs from the sorted JSON-encoded list the claim
requires. -/
theorem set_serialize_not_json_list :
    UnicodeSetAttribute.serialize (some (py_set ["b", "a"]))
        = some (PyVal.set ["a", "b"])
    ∧ PyVal.set ["a", "b"]
        ≠ PyVal.list [PyVal.str (json_dumps_str "a"), PyVal.str (json_dumps_str "b")] :=
  ⟨rfl, fun h => PyVal.noConfusion h⟩

/-- Claim C5 (amended): the generic `SetMixin.serialize` produces the
sorted list of JSON-encoded elements and omits empty/absent sets, but the
string-set attribute's override `UnicodeSetAttribute.serialize` instead
produces the SET of the (raw, non-JSON-encoded) elements — order-free on
the wire — while still omitting empty/absent sets; output depends only on
set contents, so `{"b","a"}` and `{"a","b"}` serialize identically. -/
theorem set_serialization_behaviour :
    ∀ l l₂ : List String,
      SetMixin.serialize Option.none = Option.none
      ∧ SetMixin.serialize (some []) = Option.none
      ∧ UnicodeSetAttribute.serialize Option.none = Option.none
      ∧ UnicodeSetAttribute.serialize (some []) = Option.none
      ∧ (py_set l ≠ [] →
          SetMixin.serialize (some (py_set l))
              = some (PyVal.list ((py_set l).map (fun s => PyVal.str (json_dumps_str s))))
          ∧ PySorted (py_set l)
          ∧ UnicodeSetAttribute.serialize (some (py_set l))
              = some (PyVal.set (py_set l)))
      ∧ (py_set l = py_set l₂ →
          UnicodeSetAttribute.serialize (some (py_set l))
            = UnicodeSetAttribute.serialize (some (py_set l₂))) := by
  intro l l₂
  refine ⟨rfl, rfl, rfl, rfl, ?_, ?_⟩
  · intro h
    have hE : (py_set l).isEmpty = false := by
      cases hc : py_set l with
      | nil => exact absurd hc h
      | cons x xs => rfl
    have hfun : UnicodeSetAttribute.element_serialize = id := funext (fun _ => rfl)
    refine ⟨?_, pysorted_py_set l, ?_⟩
    · simp [SetMixin.serialize, hE, py_sorted_py_set l]
    · simp [UnicodeSetAttribute.serialize, hE, hfun,
        py_sorted_py_set l, py_set_py_set l]
  · intro h
    rw [h]

/-- Witness for the amended claim C5: the concrete sets `{"b","a"}` and
`{"a","b"}` are non-empty, equal as sets, and serialize per the amended
statement. -/
theorem set_serialization_behaviour_witness :
    py_set ["b", "a"] ≠ []
    ∧ py_set ["b", "a"] = py_set ["a", "b"]
    ∧ SetMixin.serialize (some (py_set ["b", "a"]))
        = some (PyVal.list ((py_set ["b", "a"]).map (fun s => PyVal.str (json_dumps_str s))))
    ∧ UnicodeSetAttribute.serialize (some (py_set ["b", "a"]))
        = UnicodeSetAttribute.serialize (some (py_set ["a", "b"])) := by
  have h := set_serialization_behaviour ["b", "a"] ["a", "b"]
  have hne : py_set ["b", "a"] ≠ [] := by decide
  have heq : py_set ["b", "a"] = py_set ["a", "b"] := by decide
  exact ⟨hne, heq, (h.2.2.2.2.1 hne).1, h.2.2.2.2.2 heq⟩

/-! ## Container classes, defaults and construction

The machinery shared by claims C2, C7 and C9: a document/nested-map class
is a `MapCls` (its name, raw flag, schema `_attributes` and reverse
wire-name map `_dynamo_to_python_attrs`); construction is
`MapAttribute.__init__` over `AttributeContainer.__init__`.  Schemas here
carry the scalar/collection attribute classes plus the raw `MapAttribute`
class; nested non-raw map fields inside typed schemas are outside the
modelled fragment (no claim depends on them). -/

/-- The attribute classes that occur in schemas and in the raw-mode
decoding registry. -/
inductive AttrCls where
  | unicode
  | number
  | boolean
  | listA
  | nullA
  /-- The raw `MapAttribute` class (as stored in the decoding registry). -/
  | mapRaw

/-- A schema entry: the field's attribute class and its configured
defaults (callable defaults are modelled by the value they produce;
`Option.none` means not configured). -/
structure AttrDef where
  cls : AttrCls
  default : Option PyVal := Option.none
  default_for_new : Option PyVal := Option.none

/-- A container class: `name` identifies the Python class (`type(self)`),
`isRaw` is `cls == MapAttribute`, `schema` is `cls._attributes` keyed by
python attribute name, `reverseMap` is `cls._dynamo_to_python_attrs`. -/
structure MapCls where
  name : String
  isRaw : Bool
  schema : List (String × AttrDef)
  reverseMap : List (String × String)

/-- `MapAttribute.attribute_args`: the argument names of
`Attribute.__init__` popped into `attribute_kwargs` by
`MapAttribute.__init__`. -/
def attribute_args : List String :=
  ["hash_key", "range_key", "null", "default", "default_for_new", "attr_name"]

/-- `AttributeContainer._set_defaults` (attributes.py lines 335..349):
for each schema field pick `default_for_new` exactly when
`_user_instantiated` holds and that default is configured (`is not None`),
otherwise the plain default, and bind non-`None` results under the python
attribute name. -/
def AttributeContainer.set_defaults (user_instantiated : Bool) (cls : MapCls) :
    List (String × PyVal) :=
  cls.schema.foldl
    (fun store nd =>
      let d := if user_instantiated && nd.2.default_for_new.isSome
               then nd.2.default_for_new else nd.2.default
      match d with
      | Option.none => store
      | some v => assoc_set store nd.1 v)
    []

/-- `AttributeContainer._set_attributes` together with the `MapAttribute`
override (attributes.py lines 351..359 and 798..806): raw instances store
any name-value pair directly into `attribute_values`; non-raw instances
reject names absent from the schema with `ValueError` and otherwise store
through the descriptor under the python name. -/
def MapAttribute.set_attributes (cls : MapCls) :
    List (String × PyVal) → List (String × PyVal) → Except String (List (String × PyVal))
  | store, [] => Except.ok store
  | store, (k, v) :: rest =>
      if cls.isRaw then MapAttribute.set_attributes cls (assoc_set store k v) rest
      else if (assoc_get cls.schema k).isSome then
        MapAttribute.set_attributes cls (assoc_set store k v) rest
      else Except.error ("Attribute " ++ k ++ " specified does not exist")

/-- `MapAttribute.__init__` (attributes.py lines 640..664): pop the
`Attribute.__init__` argument names into `attribute_kwargs`, run
`AttributeContainer.__init__` on the remaining attributes (which always
passes `_user_instantiated = True`: defaults, then `_set_attributes`), and
finally re-apply the popped kwargs as attributes when the heuristic of
lines 660..664 fires.  The result is the instance's `attribute_values`. -/
def MapAttribute.init (cls : MapCls) (attributes : List (String × PyVal)) :
    Except String (List (String × PyVal)) :=
  let attribute_kwargs := attributes.filter (fun p => attribute_args.contains p.1)
  let rest := attributes.filter (fun p => !attribute_args.contains p.1)
  do
    let store₁ ← MapAttribute.set_attributes cls
      (AttributeContainer.set_defaults true cls) rest
    if !attribute_kwargs.isEmpty
        && (!rest.isEmpty || cls.isRaw
            || attribute_kwargs.all (fun p => (assoc_get cls.schema p.1).isSome)) then
      MapAttribute.set_attributes cls store₁ attribute_kwargs
    else
      Except.ok store₁

/-! ## Claim C9: assigning a plain mapping to a schema-mode map field

`MapAttribute.__set__` (attributes.py lines 789..796): a value that is a
plain mapping is replaced by `type(self)(**value)` — a freshly constructed
instance of the field's own class — before `Attribute.__set__` binds it
into the enclosing container's `attribute_values`. -/

/-- `MapAttribute.__set__`: the value that ends up stored for the field —
plain mappings are wrapped via `type(self)(**value)`, everything else is
bound as-is. -/
def MapAttribute.descriptor_set (cls : MapCls) (value : PyVal) : Except String PyVal :=
  match value with
  | PyVal.pydict kvs =>
      (MapAttribute.init cls kvs).map (fun store => PyVal.mapInst cls.name store)
  | v => Except.ok v

/-- Claim C9: whenever assigning a plain mapping to a schema-mode map
attribute field succeeds, the stored value is a freshly constructed
instance of the field's own class built from the mapping's entries — never
the plain mapping object itself. -/
theorem map_descriptor_set_wraps_mapping :
    ∀ (cls : MapCls) (kvs : List (String × PyVal)) (r : PyVal),
      MapAttribute.descriptor_set cls (PyVal.pydict kvs) = Except.ok r →
        (∃ store, r = PyVal.mapInst cls.name store) ∧ r ≠ PyVal.pydict kvs := by
  intro cls kvs r h
  simp only [MapAttribute.descriptor_set] at h
  cases hin : MapAttribute.init cls kvs with
  | error e => rw [hin] at h; simp [Except.map] at h
  | ok store =>
      rw [hin] at h
      simp only [Except.map, Except.ok.injEq] at h
      refine ⟨⟨store, h.symm⟩, ?_⟩
      rw [← h]
      exact fun hc => PyVal.noConfusion hc

/-- The raw `MapAttribute` class itself. -/
def rawMapCls : MapCls :=
  { name := "MapAttribute", isRaw := true, schema := [], reverseMap := [] }

/-- Witness for claim C9: assigning the mapping `{"k": "v"}` to a raw map
field stores a fresh `MapAttribute` instance holding that entry. -/
theorem map_descriptor_set_wraps_mapping_witness :
    MapAttribute.descriptor_set rawMapCls (PyVal.pydict [("k", PyVal.str "v")])
        = Except.ok (PyVal.mapInst "MapAttribute" [("k", PyVal.str "v")])
    ∧ (∃ store, PyVal.mapInst "MapAttribute" [("k", PyVal.str "v")]
          = PyVal.mapInst rawMapCls.name store)
    ∧ PyVal.mapInst "MapAttribute" [("k", PyVal.str "v")]
        ≠ PyVal.pydict [("k", PyVal.str "v")] := by
  have h := map_descriptor_set_wraps_mapping rawMapCls [("k", PyVal.str "v")]
      (PyVal.mapInst "MapAttribute" [("k", PyVal.str "v")]) rfl
  exact ⟨rfl, h.1, h.2⟩

/-! ## The deserialization engine (claims C2 and C7)

`MapAttribute.deserialize` (attributes.py lines 853..874): walk the wire
fields; unwrap the single-key type-tag wrapper (`_get_value_for_deserialize`,
lines 913..917, special-casing `NULL`); resolve the python field name via
the reverse map (`get(k, k)`); resolve the decoding class from the schema
(non-raw: unknown names are skipped) or from the registry keyed by the wire
tag (raw: unknown tags raise, `_get_class_for_deserialize`, lines 920..924);
decode; finally a non-raw class instantiates `type(self)(**deserialized_dict)`
while a raw class returns the plain dict. -/

/-- The wire type tag of a wire value (the single key of the store's
wrapper; the tag constants come from spec section 6). -/
def wire_tag : WireV → String
  | WireV.S _ => "S"
  | WireV.N _ => "N"
  | WireV.BOOLW _ => "BOOL"
  | WireV.SSW _ => "SS"
  | WireV.LW _ => "L"
  | WireV.MW _ => "M"
  | WireV.NULLW => "NULL"
  | WireV.UNK t _ => t

/-- The payload under the type tag, as a Python value. -/
def wire_payload : WireV → PyVal
  | WireV.S s => PyVal.str s
  | WireV.N s => PyVal.str s
  | WireV.BOOLW b => PyVal.bool b
  | WireV.SSW l => PyVal.list (l.map PyVal.str)
  | WireV.LW l => PyVal.wireList l
  | WireV.MW m => PyVal.wireDict m
  | WireV.NULLW => PyVal.bool true
  | WireV.UNK _ p => PyVal.str p

/-- `_get_value_for_deserialize`: the payload, or `None` when the tag is
`NULL` (regardless of the payload). -/
def wire_value : WireV → Option PyVal
  | WireV.NULLW => Option.none
  | w => some (wire_payload w)

/-- `DESERIALIZE_CLASS_MAP` (attributes.py lines 1067..1075): wire tag to
decoding attribute class.  Note the registry has no `SS` entry. -/
def DESERIALIZE_CLASS_MAP : List (String × AttrCls) :=
  [("L", AttrCls.listA), ("N", AttrCls.number), ("S", AttrCls.unicode),
   ("BOOL", AttrCls.boolean), ("M", AttrCls.mapRaw), ("NULL", AttrCls.nullA)]

/-- `_get_class_for_deserialize` (attributes.py lines 920..924): look the
wire tag up in the registry; an absent tag raises `ValueError`. -/
def get_class_for_deserialize (w : WireV) : Except String AttrCls :=
  match assoc_get DESERIALIZE_CLASS_MAP (wire_tag w) with
  | Option.none => Except.error ("Unknown value: " ++ wire_tag w)
  | some c => Except.ok c

/-- The scalar classes' `deserialize` methods: identity for
`Attribute`/`UnicodeAttribute` and `ListAttribute` (pass-through),
`json.loads` for `NumberAttribute`, `bool(value)` for `BooleanAttribute`,
`None` for `NullAttribute`. -/
def Attribute.scalar_deserialize (c : AttrCls) (payload : PyVal) : Except String PyVal :=
  match c with
  | AttrCls.unicode => Except.ok payload
  | AttrCls.listA => Except.ok payload
  | AttrCls.number => json_loads payload
  | AttrCls.boolean => Except.ok (PyVal.bool (py_truthy payload))
  | AttrCls.nullA => Except.ok PyVal.pynone
  | AttrCls.mapRaw => Except.error "map payloads are handled by the recursive path"

mutual

/-- The raw-mode field loop of `MapAttribute.deserialize`: per field,
resolve the class from the registry (unknown tags raise) and decode; a
`NULL` tag stores `None` without decoding. -/
def MapAttribute.deserialize_raw_entries :
    List (String × WireV) → Except String (List (String × PyVal))
  | [] => Except.ok []
  | (k, w) :: rest => do
      let attr_class ← get_class_for_deserialize w
      let dv ← match wire_value w with
               | Option.none => Except.ok PyVal.pynone
               | some _ => MapAttribute.class_deserialize attr_class w
      let restD ← MapAttribute.deserialize_raw_entries rest
      Except.ok ((k, dv) :: restD)

/-- `attr_class.deserialize(attr_value)`: the raw `MapAttribute` class
recurses into the map payload and returns a plain dict; every other class
decodes its scalar payload. -/
def MapAttribute.class_deserialize : AttrCls → WireV → Except String PyVal
  | AttrCls.mapRaw, WireV.MW m =>
      (MapAttribute.deserialize_raw_entries m).map PyVal.pydict
  | AttrCls.mapRaw, _ => Except.error "malformed map payload"
  | c, w => Attribute.scalar_deserialize c (wire_payload w)

end

/-- Decoding of one resolved field: `None` for a `NULL`-tagged value,
otherwise `attr_class.deserialize` on the unwrapped payload (definitionally
the `match` used inside the loops). -/
def MapAttribute.entry_deserialize (c : AttrCls) (w : WireV) : Except String PyVal :=
  match wire_value w with
  | Option.none => Except.ok PyVal.pynone
  | some _ => MapAttribute.class_deserialize c w

/-- The typed-mode field loop of `MapAttribute.deserialize`: per field,
resolve the python name via the reverse map (`get(k, k)`) and the class
from the schema; an unknown name is skipped (`continue`). -/
def MapAttribute.deserialize_typed_entries (cls : MapCls) :
    List (String × WireV) → Except String (List (String × PyVal))
  | [] => Except.ok []
  | (k, w) :: rest =>
      let key := lookup_default cls.reverseMap k
      match assoc_get cls.schema key with
      | Option.none => MapAttribute.deserialize_typed_entries cls rest
      | some ad => do
          let dv ← MapAttribute.entry_deserialize ad.cls w
          let restD ← MapAttribute.deserialize_typed_entries cls rest
          Except.ok ((key, dv) :: restD)

/-- `MapAttribute.deserialize` (attributes.py lines 853..874): the raw
class returns the decoded plain dict; a non-raw class instantiates
`type(self)(**deserialized_dict)` — which runs `MapAttribute.__init__`
with its construction-time defaults. -/
def MapAttribute.deserialize (cls : MapCls) (entries : List (String × WireV)) :
    Except String PyVal :=
  if cls.isRaw then
    (MapAttribute.deserialize_raw_entries entries).map PyVal.pydict
  else do
    let d ← MapAttribute.deserialize_typed_entries cls entries
    (MapAttribute.init cls d).map (PyVal.mapInst cls.name)

/-! ## Claim C2: for-new defaults on rehydration -/

/-- A document class with one field `f` carrying a for-new default
`"NEW"` and no plain default. -/
def docCls : MapCls :=
  { name := "MyDoc", isRaw := false,
    schema := [("f", { cls := AttrCls.unicode, default := Option.none,
                       default_for_new := some (PyVal.str "NEW") })],
    reverseMap := [] }

/-- Claim C2 (code bug): rehydrating a stored payload applies the for-new
default.  Deserializing the empty wire payload for a non-raw map class whose
field `f` has `default_for_new = "NEW"` instantiates `type(self)(**dict)` —
which defaults `_user_instantiated` to `True` — so the freshly rehydrated
instance carries `f = "NEW"`, although the claim (and the code's own comment
"it's not set for re-saved objects") requires the plain default only; had
construction been flagged as not user-instantiated, `_set_defaults` would
have bound nothing. -/
theorem deserialize_applies_default_for_new :
    MapAttribute.deserialize docCls []
        = Except.ok (PyVal.mapInst "MyDoc" [("f", PyVal.str "NEW")])
    ∧ AttributeContainer.set_defaults false docCls = [] :=
  ⟨rfl, rfl⟩

/-! ## Claim C7: unknown wire names and unknown wire tags -/

/-- `Except.bind` on an error short-circuits. -/
@[simp] theorem except_bind_error {α β : Type} (e : String) (f : α → Except String β) :
    Except.bind (Except.error e) f = Except.error e := rfl

/-- `Except.bind` on a success applies the continuation. -/
@[simp] theorem except_bind_ok {α β : Type} (a : α) (f : α → Except String β) :
    Except.bind (Except.ok a) f = f a := rfl

/-- `Except.map` on an error short-circuits. -/
@[simp] theorem except_map_error {α β : Type} (e : String) (f : α → β) :
    Except.map f (Except.error e : Except String α) = Except.error e := rfl

/-- `Except.map` on a success applies the function. -/
@[simp] theorem except_map_ok {α β : Type} (a : α) (f : α → β) :
    Except.map f (Except.ok a : Except String α) = Except.ok (f a) := rfl

/-- An error is not `isOk`. -/
@[simp] theorem except_isOk_error {α : Type} (e : String) :
    (Except.error e : Except String α).isOk = false := rfl

/-- A success is `isOk`. -/
@[simp] theorem except_isOk_ok {α : Type} (a : α) :
    (Except.ok a : Except String α).isOk = true := rfl

/-- The raw-mode loop on a cons, written with `MapAttribute.entry_deserialize`
(definitionally equal to the do-block in the definition). -/
theorem deserialize_raw_entries_cons (k : String) (w : WireV)
    (rest : List (String × WireV)) :
    MapAttribute.deserialize_raw_entries ((k, w) :: rest)
      = Except.bind (get_class_for_deserialize w) (fun attr_class =>
          Except.bind (MapAttribute.entry_deserialize attr_class w) (fun dv =>
            Except.bind (MapAttribute.deserialize_raw_entries rest) (fun restD =>
              Except.ok ((k, dv) :: restD)))) := by
  rw [MapAttribute.deserialize_raw_entries]
  cases hg : get_class_for_deserialize w with
  | error e => rfl
  | ok c =>
      cases hwv : wire_value w with
      | none => simp only [MapAttribute.entry_deserialize, hwv]; rfl
      | some v => simp only [MapAttribute.entry_deserialize, hwv]; rfl

/-- In the raw-mode loop, any entry whose wire tag is absent from the
decoding registry makes deserialization fail. -/
theorem deserialize_raw_entries_unknown_tag :
    ∀ (entries : List (String × WireV)) (k' : String) (w' : WireV),
      (k', w') ∈ entries →
      (assoc_get DESERIALIZE_CLASS_MAP (wire_tag w')).isNone = true →
      (MapAttribute.deserialize_raw_entries entries).isOk = false := by
  intro entries
  induction entries with
  | nil => intro k' w' hmem _; cases hmem
  | cons hd tl ih =>
      obtain ⟨k, w⟩ := hd
      intro k' w' hmem hN
      rw [deserialize_raw_entries_cons]
      rcases List.mem_cons.mp hmem with heq | hmem'
      · injection heq with h1 h2
        subst h2
        have hcls : get_class_for_deserialize w'
            = Except.error ("Unknown value: " ++ wire_tag w') := by
          unfold get_class_for_deserialize
          cases hC : assoc_get DESERIALIZE_CLASS_MAP (wire_tag w') with
          | none => rfl
          | some c => rw [hC] at hN; simp at hN
        rw [hcls]
        rfl
      · cases hcls : get_class_for_deserialize w with
        | error e => rfl
        | ok c =>
            rw [except_bind_ok]
            cases hdv : MapAttribute.entry_deserialize c w with
            | error e => rfl
            | ok dv =>
                rw [except_bind_ok]
                have htl := ih k' w' hmem' hN
                cases hrest : MapAttribute.deserialize_raw_entries tl with
                | error e => rfl
                | ok rl => rw [hrest] at htl; simp at htl

/-- Claim C7: during deserialization of a schema-bearing (non-raw)
document, a wire field whose name resolves to no schema attribute is
dropped without raising — deserializing with the field present equals
deserializing without it; an unrecognized wire type tag makes the registry
lookup raise, and raw-mode deserialization of a payload containing such a
value fails. -/
theorem deserialize_unknown_dispatch :
    ∀ (cls : MapCls) (k : String) (w : WireV) (rest entries : List (String × WireV))
      (k' : String) (w' : WireV),
      (cls.isRaw = false →
        assoc_get cls.schema (lookup_default cls.reverseMap k) = Option.none →
        MapAttribute.deserialize cls ((k, w) :: rest) = MapAttribute.deserialize cls rest)
      ∧ ((assoc_get DESERIALIZE_CLASS_MAP (wire_tag w')).isNone = true →
          ∃ msg, get_class_for_deserialize w' = Except.error msg)
      ∧ ((k', w') ∈ entries →
          (assoc_get DESERIALIZE_CLASS_MAP (wire_tag w')).isNone = true →
          (MapAttribute.deserialize rawMapCls entries).isOk = false) := by
  intro cls k w rest entries k' w'
  refine ⟨?_, ?_, ?_⟩
  · intro h1 h2
    have hloop : MapAttribute.deserialize_typed_entries cls ((k, w) :: rest)
        = MapAttribute.deserialize_typed_entries cls rest := by
      simp [MapAttribute.deserialize_typed_entries, h2]
    simp [MapAttribute.deserialize, h1, hloop]
  · intro hN
    unfold get_class_for_deserialize
    cases hC : assoc_get DESERIALIZE_CLASS_MAP (wire_tag w') with
    | none => exact ⟨"Unknown value: " ++ wire_tag w', rfl⟩
    | some c => rw [hC] at hN; simp at hN
  · intro hmem hN
    have h := deserialize_raw_entries_unknown_tag entries k' w' hmem hN
    cases hr : MapAttribute.deserialize_raw_entries entries with
    | error e => simp [MapAttribute.deserialize, rawMapCls, hr]
    | ok d => rw [hr] at h; simp at h

/-- Witness for claim C7: the document class `docCls` drops the unknown
wire field `"unknown"`; the unrecognized tag `"X"` makes the registry
lookup raise; and raw-mode deserialization of a payload holding an
`"X"`-tagged value fails. -/
theorem deserialize_unknown_dispatch_witness :
    MapAttribute.deserialize docCls [("unknown", WireV.S "x")]
        = MapAttribute.deserialize docCls []
    ∧ (∃ msg, get_class_for_deserialize (WireV.UNK "X" "p") = Except.error msg)
    ∧ (MapAttribute.deserialize rawMapCls [("k", WireV.UNK "X" "p")]).isOk = false := by
  have h := deserialize_unknown_dispatch docCls "unknown" (WireV.S "x") []
      [("k", WireV.UNK "X" "p")] "k" (WireV.UNK "X" "p")
  exact ⟨h.1 rfl rfl, h.2.1 rfl, h.2.2 (List.mem_singleton.mpr rfl) rfl⟩

end Falcano
